import Mathlib

/-!
Verification development for the `NestedDict` container of
`pydatutils/struct.py` (eurostat/pyDatUtills).

The Python values that the container manipulates are embedded as the
inductive type `PyVal`; Python `dict`s are insertion-ordered association
lists (CPython 3.7+ semantics), `list`/`tuple`/`set` keep their elements,
and scalars are integers, strings or `None`.

The decisive fact about this code base is that the helper predicates of
the `Type` class are broken at the calling convention level:
`Type.is_numeric` (struct.py lines 215-236) and `Type.is_string` (lines
239-256) are `@staticmethod`s whose parameter lists are `(cls, arg)`.  A
staticmethod receives no implicit first argument, so every one-argument
call — the only form ever used — raises
`TypeError: missing 1 required positional argument`.  `Type.is_sequence`
(lines 259-280) and `Type.is_mapping` (lines 283-300) are classmethods
whose bodies are `isinstance(arg, …) and not cls.is_string(arg)`: they
return `False` whenever the `isinstance` test fails, and raise the
`is_string` TypeError whenever it succeeds (note that
`collections.abc.Sequence` also covers `str`, so `is_sequence` raises on
strings too).  They never return `True`.

Every `NestedDict` method calls these helpers inside its validation
prelude or inside an early property access, so most public operations
raise before doing anything else.  Each definition below translates its
method statement by statement up to the raising call, and a comment marks
the code that is consequently dead in the source.  Exceptions are
modelled with `Except PyErr` (or a `state × Option PyErr` pair for the
mutating methods); the constructor names record which Python exception
the source raises at that point, with `try/except` re-raises applied as
in the source.
-/

/-- Embedded Python values.  `vDict` is an insertion-ordered association
list, matching CPython dict semantics. -/
inductive PyVal where
  | vInt   : Int → PyVal
  | vStr   : String → PyVal
  | vNone  : PyVal
  | vList  : List PyVal → PyVal
  | vTuple : List PyVal → PyVal
  | vSet   : List PyVal → PyVal
  | vDict  : List (PyVal × PyVal) → PyVal
deriving Repr

open PyVal

mutual

/-- Decidable structural equality for `PyVal` (Python `==` on the embedded
fragment: no numeric coercions between distinct scalar kinds are needed,
since the analysed data never mixes them). -/
def pyDecEq : (a b : PyVal) → Decidable (a = b)
  | vInt a, vInt b =>
    if h : a = b then isTrue (congrArg _ h) else isFalse (fun hh => h (PyVal.vInt.inj hh))
  | vStr a, vStr b =>
    if h : a = b then isTrue (congrArg _ h) else isFalse (fun hh => h (PyVal.vStr.inj hh))
  | vNone, vNone => isTrue rfl
  | vList a, vList b =>
    match pyDecEqL a b with
    | isTrue h => isTrue (congrArg _ h)
    | isFalse h => isFalse (fun hh => h (PyVal.vList.inj hh))
  | vTuple a, vTuple b =>
    match pyDecEqL a b with
    | isTrue h => isTrue (congrArg _ h)
    | isFalse h => isFalse (fun hh => h (PyVal.vTuple.inj hh))
  | vSet a, vSet b =>
    match pyDecEqL a b with
    | isTrue h => isTrue (congrArg _ h)
    | isFalse h => isFalse (fun hh => h (PyVal.vSet.inj hh))
  | vDict a, vDict b =>
    match pyDecEqD a b with
    | isTrue h => isTrue (congrArg _ h)
    | isFalse h => isFalse (fun hh => h (PyVal.vDict.inj hh))
  | vInt _, vStr _ | vInt _, vNone | vInt _, vList _ | vInt _, vTuple _ | vInt _, vSet _ | vInt _, vDict _
  | vStr _, vInt _ | vStr _, vNone | vStr _, vList _ | vStr _, vTuple _ | vStr _, vSet _ | vStr _, vDict _
  | vNone, vInt _ | vNone, vStr _ | vNone, vList _ | vNone, vTuple _ | vNone, vSet _ | vNone, vDict _
  | vList _, vInt _ | vList _, vStr _ | vList _, vNone | vList _, vTuple _ | vList _, vSet _ | vList _, vDict _
  | vTuple _, vInt _ | vTuple _, vStr _ | vTuple _, vNone | vTuple _, vList _ | vTuple _, vSet _ | vTuple _, vDict _
  | vSet _, vInt _ | vSet _, vStr _ | vSet _, vNone | vSet _, vList _ | vSet _, vTuple _ | vSet _, vDict _
  | vDict _, vInt _ | vDict _, vStr _ | vDict _, vNone | vDict _, vList _ | vDict _, vTuple _ | vDict _, vSet _ =>
    isFalse nofun

/-- Equality of element lists. -/
def pyDecEqL : (a b : List PyVal) → Decidable (a = b)
  | [], [] => isTrue rfl
  | a :: as, b :: bs =>
    match pyDecEq a b, pyDecEqL as bs with
    | isTrue h1, isTrue h2 => isTrue (by rw [h1, h2])
    | isFalse h1, _ => isFalse (fun hh => h1 (List.head_eq_of_cons_eq hh))
    | _, isFalse h2 => isFalse (fun hh => h2 (List.tail_eq_of_cons_eq hh))
  | [], _ :: _ => isFalse nofun
  | _ :: _, [] => isFalse nofun

/-- Equality of association lists. -/
def pyDecEqD : (a b : List (PyVal × PyVal)) → Decidable (a = b)
  | [], [] => isTrue rfl
  | (k1, v1) :: as, (k2, v2) :: bs =>
    match pyDecEq k1 k2, pyDecEq v1 v2, pyDecEqD as bs with
    | isTrue h1, isTrue h2, isTrue h3 => isTrue (by rw [h1, h2, h3])
    | isFalse h1, _, _ => isFalse (fun hh => by cases hh; exact h1 rfl)
    | _, isFalse h2, _ => isFalse (fun hh => by cases hh; exact h2 rfl)
    | _, _, isFalse h3 => isFalse (fun hh => by cases hh; exact h3 rfl)
  | [], _ :: _ => isFalse nofun
  | _ :: _, [] => isFalse nofun

end

instance : DecidableEq PyVal := pyDecEq

instance {ε α : Type} [DecidableEq ε] [DecidableEq α] : DecidableEq (Except ε α) := fun a b =>
  match a, b with
  | .ok x, .ok y => if h : x = y then isTrue (by rw [h]) else isFalse (fun hh => h (by cases hh; rfl))
  | .error x, .error y => if h : x = y then isTrue (by rw [h]) else isFalse (fun hh => h (by cases hh; rfl))
  | .ok _, .error _ => isFalse nofun
  | .error _, .ok _ => isFalse nofun

/-- Reduction of a successful `Except` bind. -/
theorem except_bind_ok {e a b : Type} (x : a) (f : a → Except e b) :
    (Except.ok x >>= f) = f x := rfl

/-- Reduction of a failing `Except` bind. -/
theorem except_bind_err {e a b : Type} (err : e) (f : a → Except e b) :
    ((Except.error err : Except e a) >>= f) = .error err := rfl

/-- Python exceptions raised by the embedded code.  `unknownDimension` is
the `IOError("Parsed dimensions are not recognised")` raised when a filter
names a dimension outside the order (struct.py lines 1513-1516,
1970-1973); `ioError` stands for the other `IOError`s the class raises
(creation at lines 898-900, `xupdate`'s argument check at 1866-1869). -/
inductive PyErr where
  | typeError
  | keyError
  | indexError
  | unknownDimension
  | ioError
deriving DecidableEq, Repr

/-- A Python dict as an insertion-ordered association list. -/
abbrev PyDict := List (PyVal × PyVal)

/-- Elements of a sequence value. -/
def seqElems : PyVal → List PyVal
  | vList l | vTuple l => l
  | _ => []

/-- Python `d[k]` / `d.get(k)` on the embedded dict. -/
def dictLookup (d : PyDict) (k : PyVal) : Option PyVal :=
  (d.find? (fun p => p.1 = k)).map Prod.snd

/-- Lookup in a string-keyed insertion-ordered dict. -/
def lookupStr {α : Type} (l : List (String × α)) (k : String) : Option α :=
  (l.find? (fun p => p.1 = k)).map Prod.snd

/-- `itertools.product(*doms)` in declaration order: the first domain
varies slowest (struct.py line 1976). -/
def pyProduct : List (List PyVal) → List (List PyVal)
  | [] => [[]]
  | dom :: rest => (dom.map (fun x => (pyProduct rest).map (fun t => x :: t))).flatten

/-- `Type.is_numeric(arg)` (struct.py lines 215-236): the method is a
`@staticmethod` with parameters `(cls, arg)`, so the one-argument call —
the only call form in the class — binds `arg` to `cls` and raises
`TypeError: is_numeric() missing 1 required positional argument`.  The
function therefore returns the exception every call raises; the
`float(arg)` body is dead code. -/
def typeIsNumeric (_ : PyVal) : PyErr := .typeError

/-- `Type.is_string(arg)` (struct.py lines 239-256): the same
`@staticmethod (cls, arg)` slip, so every one-argument call — including
the `cls.is_string(arg)` calls inside `is_sequence`/`is_mapping` — raises
`TypeError`. -/
def typeIsString (_ : PyVal) : PyErr := .typeError

/-- `isinstance(arg, collections.abc.Sequence)`: lists, tuples and
strings. -/
def isinstSequence : PyVal → Bool
  | vList _ | vTuple _ | vStr _ => true
  | _ => false

/-- `isinstance(arg, collections.abc.Mapping)`. -/
def isinstMapping : PyVal → Bool
  | vDict _ => true
  | _ => false

/-- `Type.is_sequence(arg)` (struct.py lines 259-280):
`isinstance(arg, Sequence) and not cls.is_string(arg)`.  A non-sequence
short-circuits to `False`; every sequence (and every string) evaluates the
broken `is_string` call and raises its `TypeError`.  The predicate never
returns `True`. -/
def typeIsSequence (arg : PyVal) : Except PyErr Bool :=
  if isinstSequence arg then .error (typeIsString arg) else .ok false

/-- `Type.is_mapping(arg)` (struct.py lines 283-300):
`isinstance(arg, Mapping) and not cls.is_string(arg)`.  A non-mapping
short-circuits to `False`; every mapping raises the `is_string`
`TypeError`.  The predicate never returns `True`. -/
def typeIsMapping (arg : PyVal) : Except PyErr Bool :=
  if isinstMapping arg then .error (typeIsString arg) else .ok false

/-- The observable state of a `NestedDict` instance: the underlying dict
(`tree`), the private `__dimensions` cache, the private `__order` list and
the private `__xlen` cache (struct.py lines 877-930). -/
structure NDState where
  tree : PyDict
  dims : List (String × PyVal)
  order : List String
  xlenCache : List (String × Nat)
deriving DecidableEq, Repr

/-- The container produced by `NestedDict()` / `NestedDict({})`: the
early return of `__init__` (struct.py lines 883-885) installs the empty
dict with empty `__dimensions`, `__order` and `__xlen`. -/
def emptyND : NDState := ⟨[], [], [], []⟩

/-- The `dimensions` property getter (struct.py lines 1039-1040):
`{k: v[0] if Type.is_sequence(v) and len(v) == 1 else v for k, v in
self.__dimensions.items()}`.  The `Type.is_sequence(v)` call raises
`TypeError` for every sequence-valued (or string-valued) cached domain;
only states whose cached values are non-sequences get through, unwrapping
nothing (the unwrap guard can never be `True`). -/
def dimensionsE (dims : List (String × PyVal)) : Except PyErr (List (String × PyVal)) :=
  dims.mapM (fun p => do
    let b ← typeIsSequence p.2
    Except.ok (p.1, if b && (seqElems p.2).length == 1 then (seqElems p.2).getD 0 vNone else p.2))

/-- A dimension spec rendered as the Python dict passed to
`NestedDict(spec)`. -/
def specPyDict (spec : List (String × List Int)) : PyDict :=
  spec.map (fun p => (vStr p.1, vList (p.2.map vInt)))

/-- `NestedDict(spec)` for a mapping spec (struct.py lines 877-930).  The
empty cases `NestedDict()` / `NestedDict({})` take the early return at
lines 883-885 and yield the empty container.  Any other mapping reaches
`self._deep_create(spec)` inside `try: … except: raise IOError("Error
creating nested dictionary")` (lines 896-900); `_deep_create`'s argument
check `assert (len(args)==1 and Type.is_mapping(args[0])) or …` (line
1136) calls `Type.is_mapping` on the dict, which raises `TypeError`, and
the except clause converts it — and would convert a `False` verdict's
`AssertionError` the same way — into the `IOError`.  (The ORDER check at
lines 887-891 passes first: with no `order` keyword the value is the bool
`True` and no `Type` helper is called.) -/
def createE (spec : List (String × List Int)) : Except PyErr NDState :=
  if spec = [] then .ok emptyND
  else
    match typeIsMapping (vDict (specPyDict spec)) with
    | .error _ => .error .ioError
    | .ok _ => .error .ioError

/-- `xlen()` with no argument (struct.py lines 2099-2117): `dimensions`
is set to `self.order` (line 2099; the subset assert at 2102-2105 then
trivially passes), the private `__xlen` cache is filtered to those
dimensions (line 2107), and `reduce(lambda x, y: x*y, xlen.values())`
(line 2116) multiplies the counts — raising `TypeError` on the empty
cache, since `reduce` of an empty sequence without initialiser fails.
Note that no `Type` helper and no property getter is consulted on this
path. -/
def xlenTotE (st : NDState) : Except PyErr Nat :=
  let cache := st.xlenCache.filter (fun p => st.order.contains p.1)
  match cache.map Prod.snd with
  | [] => .error .typeError
  | n :: rest => .ok (rest.foldl (fun a b => a * b) n)

/-- `xlen(sel)` for a list argument `sel`, as called by `xget` (struct.py
lines 2099-2118).  The empty list hits the `arg in ((),([],),(None,))`
branch: `dimensions = self.order`, the cache is filtered, and — since
`arg` is `([],)`, not `()` — the non-reduce return at line 2118 runs:
a multi-entry cache is returned as a dict, a single entry as its count,
and `list(xlen.values())[0]` raises `IndexError` on the empty cache.  A
non-empty list reaches `Type.is_sequence(arg[0])` (line 2100) on the list
and raises `TypeError`; the rest of the branch is dead code. -/
def xlenArgE (st : NDState) (sel : List String) : Except PyErr PyVal :=
  if sel = [] then
    let cache := st.xlenCache.filter (fun p => st.order.contains p.1)
    if cache.length > 1 then .ok (vDict (cache.map (fun p => (vStr p.1, vInt p.2))))
    else
      match cache with
      | [] => .error .indexError
      | p :: _ => .ok (vInt p.2)
  else
    match typeIsSequence (vList (sel.map vStr)) with
    | _ => .error .typeError

/-- `NestedDict._deep_merge(dic1, dic2, in_place=False)` (struct.py lines
1271-1344).  The `in_place` bool check passes; the operand check
`assert all([Type.is_mapping(dic) for dic in dics])` inside
`try: … except: raise TypeError("Wrong format/value for input
arguments")` (lines 1276-1279) evaluates `is_mapping` on every operand:
a mapping operand raises the helper's `TypeError`, a non-mapping operand
yields `False` and fails the assert — either way the except clause raises
the TypeError, for every pair of operands.  The merge loop `_recurse`
(lines 1280-1335) and the deepcopy of the first operand (line 1338) are
dead code and are not modelled. -/
def deepMerge (dic1 dic2 : PyVal) : Except PyErr PyVal :=
  match typeIsMapping dic1, typeIsMapping dic2 with
  | _, _ => .error .typeError

/-- `NestedDict._deepest(dic, item=…)` (struct.py lines 1655-1711):
`assert Type.is_mapping(dic)` inside `try: … except: raise
TypeError("Wrong format/value for input argument")` (lines 1691-1694).
`is_mapping` raises on every mapping and returns `False` on everything
else (failing the assert), so every call raises the TypeError; the
generator walk (lines 1703-1711) is dead code. -/
def deepestE (dic : PyVal) : Except PyErr (List PyVal) :=
  match typeIsMapping dic with
  | _ => .error .typeError

/-- The per-dimension filter loop of `xkeys` (struct.py lines 1979-1986):
for each ordered dimension that carries a keyword filter, the filter value
goes through `Type.is_sequence(keys)` — raising `TypeError` when the
filter value is itself a sequence — is wrapped into a one-element list
otherwise, and the keys whose `i`-th coordinate is not in it are
removed. -/
def xkFilter : Nat → List String → List (String × PyVal) → List (List PyVal) →
    Except PyErr (List (List PyVal))
  | _, [], _, ks => .ok ks
  | i, d :: rest, fs, ks =>
    match lookupStr fs d with
    | none => xkFilter (i + 1) rest fs ks
    | some kv => do
      let b ← typeIsSequence kv
      let keys := if b then seqElems kv else [kv]
      xkFilter (i + 1) rest fs (ks.filter (fun k => keys.contains (k.getD i vNone)))

/-- `NestedDict.xkeys(**kwargs)` (struct.py lines 1948-1986), in source
order: (1) the keyword names are validated against `self.order` and an
unknown dimension raises `IOError("Parsed dimensions are not
recognised")` (lines 1969-1973) — before any other computation, so this
error is reachable on every state; (2) the `dimensions` property getter
runs (line 1974, see `dimensionsE`) and the getter values are read per
order entry (`KeyError` on a missing name); (3) each domain goes through
`Type.is_sequence(dim)` (lines 1974-1975), raising on sequence-valued
domains and wrapping the (non-sequence) value into `[dim]` otherwise;
(4) `itertools.product` enumerates the composite keys, an empty product
returns `[]` (lines 1976-1978), the keyword filters are applied, and a
single surviving key is auto-unwrapped unless `_force_list_` is set
(line 1986). -/
def xkeysE (st : NDState) (forceList : Bool) (filters : List (String × PyVal)) :
    Except PyErr PyVal :=
  if !(filters.all (fun f => st.order.contains f.1)) then .error .unknownDimension
  else do
    let gdims ← dimensionsE st.dims
    let doms ← st.order.mapM (fun k =>
      match lookupStr gdims k with
      | some v => Except.ok v
      | none => Except.error PyErr.keyError)
    let doms1 ← doms.mapM (fun v => do
      let b ← typeIsSequence v
      Except.ok (if b then seqElems v else [v]))
    let ks := pyProduct doms1
    if ks = [] then .ok (vList [])
    else do
      let ks2 ← xkFilter 0 st.order filters ks
      if forceList || ks2 = [] || ks2.length > 1 then .ok (vList (ks2.map vTuple))
      else .ok (vTuple (ks2.getD 0 []))

/-- The value walk of `xvalues`' keyword branch (struct.py lines
2033-2038): starting from a fresh `self.copy()`, follow the coordinates
of one composite key, inserting `{}` for a missing key
(`rdic.update({x: {}})`) and descending; reaching a non-mapping node
makes the membership test / update / subscript raise (modelled as
`TypeError`). -/
def xvWalkOne (t : PyVal) : List PyVal → Except PyErr PyVal
  | [] => .ok t
  | x :: rest =>
    match t with
    | vDict d =>
      match dictLookup d x with
      | some v => xvWalkOne v rest
      | none => xvWalkOne (vDict []) rest
    | _ => .error .typeError
termination_by structural l => l

/-- `NestedDict.xvalues(**kwargs)` (struct.py lines 2009-2040).  With no
keyword filter the values come from `self._deepest(self, item='values')`
(line 2029) — which always raises `TypeError` (see `deepestE`).  With
keyword filters the method never validates them: it iterates
`self.xkeys(_force_list_=True)` — called WITHOUT the user's kwargs (line
2032), which are simply ignored — walks each composite key through a
fresh copy of the container, and finally applies the `[] ↦ None` fixup
and the singleton auto-unwrap (lines 2039-2040). -/
def xvaluesE (st : NDState) (forceList : Bool) (filters : List (String × PyVal)) :
    Except PyErr PyVal :=
  if filters = [] then
    match deepestE (vDict st.tree) with
    | .error e => .error e
    | .ok values =>
      -- lines 2039-2040 (dead code: `_deepest` never returns)
      if values = [] then .ok vNone
      else if forceList || values.length > 1 then .ok (vList values)
      else .ok (values.getD 0 vNone)
  else do
    let kv ← xkeysE st true []
    let ks := (match kv with
      | vList l => l
      | other => [other])
    let values ← ks.mapM (fun xk => xvWalkOne (vDict st.tree) (seqElems xk))
    if values = [] then .ok vNone
    else if forceList || values.length > 1 then .ok (vList values)
    else .ok (values.getD 0 vNone)

/-- `NestedDict.xitems(**kwargs)` (struct.py lines 2053-2074): the body
is exactly `list(zip(self.xkeys(_force_list_=True),
self.xvalues(_force_list_=True)))` (line 2068) — the keyword arguments
are ignored.  `zip`'s arguments evaluate left to right: `xkeys` first,
then `xvalues`, whose no-filter branch always raises `TypeError` (see
`xvaluesE`/`deepestE`), so the zip is never built. -/
def xitemsE (st : NDState) : Except PyErr PyVal := do
  let kv ← xkeysE st true []
  let vv ← xvaluesE st true []
  .ok (vList (List.zipWith (fun k v => vTuple [k, v]) (seqElems kv) (seqElems vv)))

/-- The trailing-dimension pop of `_deep_search('get', …)` over the
REVERSED order (struct.py lines 1527-1532): pop unfiltered dimensions off
the end until a filtered one is found; emptying the list makes
`order[-1]` raise `IndexError`. -/
def popTailRev : List String → List (String × PyVal) → Except PyErr (List String)
  | [], _ => .error .indexError
  | d :: rest, fs => if fs.any (fun f => f.1 = d) then .ok (d :: rest) else popTailRev rest fs

/-- The trailing-dimension pop on the order itself. -/
def popTailE (o : List String) (fs : List (String × PyVal)) : Except PyErr (List String) :=
  (popTailRev o.reverse fs).map List.reverse

/-- `[list(v.items()) for v in val]`, flattened (struct.py line 1536):
calling `.items()` on a non-mapping raises. -/
def dsItems (vs : List PyVal) : Except PyErr (List (PyVal × PyVal)) := do
  let ls ← vs.mapM (fun v =>
    match v with
    | vDict d => Except.ok d
    | _ => Except.error PyErr.typeError)
  .ok ls.flatten

/-- The level-by-level walk of `_deep_search` (struct.py lines
1535-1546): flatten the items of the current nodes, keep the pairs whose
key passes the dimension's filter (`Type.is_sequence(keys)` raising at
line 1540 when a filter value is a sequence), and descend into the
values. -/
def dsLoop : List String → List (String × PyVal) → List PyVal → Except PyErr (List PyVal)
  | [], _, vs => .ok vs
  | d :: rest, fs, vs => do
    let pairs ← dsItems vs
    match lookupStr fs d with
    | none => dsLoop rest fs (pairs.map Prod.snd)
    | some kv => do
      let b ← typeIsSequence kv
      let keys := if b then seqElems kv else [kv]
      dsLoop rest fs ((pairs.filter (fun p => keys.contains p.1)).map Prod.snd)

/-- `NestedDict._deep_search('get', **kwargs)` (struct.py lines
1502-1547): the unknown-dimension validation (lines 1513-1516), the
trailing pop, the walk, and the final unwrap
`val[0] if Type.is_sequence(val) and len(val)==1 else val` (line 1547) —
`val` is a list, so `Type.is_sequence(val)` raises `TypeError` on every
call that reaches it; the method never returns. -/
def deepSearchGetE (st : NDState) (filters : List (String × PyVal)) : Except PyErr PyVal :=
  if !(filters.all (fun f => st.order.contains f.1)) then .error .unknownDimension
  else do
    let order1 ← popTailE st.order filters
    let val ← dsLoop order1 filters [vDict st.tree]
    match typeIsSequence (vList val) with
    | _ => .error .typeError

/-- `NestedDict.xget(**kwargs)` (struct.py lines 1714-1741).  With no
arguments it returns `self._deepest(self, item='values')` (lines
1723-1724), which always raises `TypeError`.  With keyword filters it
first computes `self.xlen(list(set(self.order).difference(set(kwargs))))`
(line 1731) over the unfiltered dimensions — see `xlenArgE`: `TypeError`
when some dimension is left unfiltered, `IndexError` on the empty
container; then `Type.is_mapping(xlen)` (line 1732) raises on a
dict-valued count and passes an integer through to
`self._deep_search('get', **kwargs)` (line 1740), which never returns
(see `deepSearchGetE`), making the final unwrap at line 1741 dead
code. -/
def xgetE (st : NDState) (filters : List (String × PyVal)) : Except PyErr PyVal :=
  if filters = [] then
    match deepestE (vDict st.tree) with
    | .error e => .error e
    | .ok vs => .ok (vList vs)
  else
    let rem := st.order.filter (fun d => !(filters.any (fun f => f.1 = d)))
    match xlenArgE st rem with
    | .error e => .error e
    | .ok xl =>
      match typeIsMapping xl with
      | .error _ => .error .typeError
      | .ok _ => deepSearchGetE st filters

/-- `NestedDict.xpop(arg)` (struct.py lines 1762-1802).  The validation
`assert len(arg)==1 and (Type.is_numeric(arg[0]) or
Type.is_mapping(arg[0]))` inside `try: … except: raise TypeError("Wrong
format/value for ITEM to delete")` (lines 1779-1782) evaluates
`Type.is_numeric(arg[0])` first, which raises for EVERY argument (see
`typeIsNumeric`), so the except clause raises the TypeError before
anything — walk, dimension juggling or the overridden `pop` (lines
1783-1802) — can run; the container is untouched. -/
def xpopE (st : NDState) (a : PyVal) : NDState × Option PyErr :=
  match typeIsNumeric a with
  | _ => (st, some PyErr.typeError)

/-- `NestedDict.xupdate(*arg)` with a batch of `(key, value)` items and
no keyword arguments (struct.py lines 1820-1930).  An empty call returns
immediately (lines 1856-1857).  Otherwise the check `assert kwargs != {}
or Type.is_sequence(arg)` inside `try: … except: raise IOError("Items
and keyword arguments incompatible when updating")` (lines 1866-1869)
evaluates `Type.is_sequence` on the non-empty `*arg` tuple, which raises
`TypeError`, and the except clause converts it to the `IOError` — before
the dimension bookkeeping and `_deep_insert` (lines 1903-1924), which are
unreachable on this path; the container is untouched.  (The earlier
checks pass without calling a helper: line 1859's `try` wraps a bare
comparison expression, and line 1863's assert short-circuits on
`kwargs == {}`.) -/
def xupdateItemsE (st : NDState) (items : List (PyVal × PyVal)) : NDState × Option PyErr :=
  match items with
  | [] => (st, none)
  | _ :: _ =>
    match typeIsSequence (vTuple (items.map (fun p => vTuple [p.1, p.2]))) with
    | _ => (st, some PyErr.ioError)

/-- `NestedDict.reorder(order)` (struct.py lines 2121-2147).  The check
`assert order is None or Type.is_sequence(order)` inside `try: … except:
raise TypeError("Wrong argument for ORDER attribute")` (lines 2141-2144)
short-circuits for `None` — and `_deep_reorder(self, order=None,
in_place=True)` is then an explicit no-op (`if order is None: return
dic`, lines 1619-1621), as is the guard `if self.order not in
(None,[],())` — while every other argument raises the TypeError: a
sequence (or string) makes `Type.is_sequence` raise, and any other value
yields `False` and fails the assert.  The permutation check and the
rebuild of `_deep_reorder` (lines 1624-1652) are dead code. -/
def reorderE (st : NDState) (order : PyVal) : NDState × Option PyErr :=
  match order with
  | vNone => (st, none)
  | o =>
    match typeIsSequence o with
    | _ => (st, some PyErr.typeError)

/-- `NestedDict.merge(*dics)` (struct.py lines 2150-2165):
`reduce(_umerge, dics)` with the single-parameter local `_umerge`.  With
two or more operands `reduce`'s first call passes two arguments and
raises `TypeError` before any merge body runs; with exactly one operand
`reduce` returns it without calling `_umerge`, so nothing is merged; with
none, `reduce` of an empty sequence raises `TypeError`.  In every case
the container is untouched (the preceding `order = self.order` reads a
plain attribute). -/
def mergeMethodE (st : NDState) (others : List PyVal) : NDState × Option PyErr :=
  if others.length = 1 then (st, none) else (st, some .typeError)

/-- C1: the claim demands that `reorder(P)` succeed for every permutation
`P` of the current order while preserving the leaf multiset and
`len(xkeys())`.  The code cannot deliver this for any container: the
assert at struct.py lines 2141-2144 evaluates `Type.is_sequence(order)`,
which raises `TypeError` for every list or tuple argument (the broken
two-parameter `is_string` staticmethod, lines 255-256 / 279-280), so
every `reorder(P)` call raises `TypeError("Wrong argument for ORDER
attribute")` and the only non-raising call is the explicit no-op
`reorder(None)`.  (Independently, no container with a non-trivial order
is constructible: creation of a non-empty spec raises `IOError`, see
`createE`.) -/
theorem reorder_never_succeeds :
    (∀ (st : NDState) (l : List PyVal), reorderE st (vList l) = (st, some .typeError)) ∧
    (∀ (st : NDState) (l : List PyVal), reorderE st (vTuple l) = (st, some .typeError)) ∧
    (∀ st : NDState, reorderE st vNone = (st, none)) :=
  ⟨fun _ _ => rfl, fun _ _ => rfl, fun _ => rfl⟩

/-- C2: the claim states that `deep_merge` coalesces colliding scalars,
with `deep_merge({1:2,3:4},{1:6,3:7}) == {1:[2,6],3:[4,7]}` and
`deep_merge({1:2},{1:2}) == {1:[2,2]}`.  In the code `_deep_merge` raises
`TypeError("Wrong format/value for input arguments")` at struct.py lines
1276-1279 on every call (`Type.is_mapping` raises on every mapping
operand), so the coalescing loop is dead code and neither scenario can
produce a result. -/
theorem deep_merge_coalesce_unattainable :
    deepMerge (vDict [(vInt 1, vInt 2), (vInt 3, vInt 4)])
        (vDict [(vInt 1, vInt 6), (vInt 3, vInt 7)]) = .error .typeError ∧
    (∀ r : PyVal,
      deepMerge (vDict [(vInt 1, vInt 2)]) (vDict [(vInt 1, vInt 2)]) ≠ .ok r) :=
  ⟨rfl, fun _ h => Except.noConfusion h⟩

/-- C3: the claim states that `create({'a':[1,2],'b':[3,4]})` yields a
container whose `xkeys()` enumerates `[(1,3),(1,4),(2,3),(2,4)]`.  The
code never builds the container: `NestedDict` of any non-empty mapping
raises `IOError("Error creating nested dictionary")` (struct.py lines
896-900, converting the `TypeError` that `Type.is_mapping` raises inside
`_deep_create`'s argument assert at line 1136), so the enumeration is
unobservable. -/
theorem create_enumeration_unattainable :
    createE [("a", [1, 2]), ("b", [3, 4])] = .error .ioError ∧
    (∀ st : NDState, createE [("a", [1, 2]), ("b", [3, 4])] ≠ .ok st) :=
  ⟨rfl, fun _ h => Except.noConfusion h⟩

/-- C4: the claim states `create(D).xlen() == Π len(domain)` for every
dimension spec `D`.  The code falsifies it everywhere: the empty spec
creates the empty container but its `xlen()` raises `TypeError` (`reduce`
over the empty filtered cache, struct.py line 2116) instead of returning
the empty product `1`; every non-empty spec already raises `IOError` at
construction (lines 896-900), so no other instance exists. -/
theorem xlen_product_law_fails :
    createE [] = .ok emptyND ∧
    xlenTotE emptyND = .error .typeError ∧
    (∀ (n : String) (d : List Int) (rest : List (String × List Int)),
      createE ((n, d) :: rest) = .error .ioError) :=
  ⟨rfl, rfl, fun _ _ _ => rfl⟩

/-- C5: the claim demands `len(xkeys()) == xlen()`, keys of length
`len(D)` and first coordinates spanning the first domain, for every
created container.  No container that could witness these invariants is
constructible: every non-empty spec raises `IOError` at creation, and on
the sole constructible (empty) container `xkeys()` returns the bare empty
tuple `()` (the singleton auto-unwrap at struct.py line 1986 applied to
`product()`'s single empty key) while `xlen()` raises `TypeError`, so
even there `len(xkeys()) == xlen()` has no value to compare against. -/
theorem xkeys_invariants_unobservable :
    (∀ (n : String) (d : List Int) (rest : List (String × List Int)),
      createE ((n, d) :: rest) = .error .ioError) ∧
    xkeysE emptyND false [] = .ok (vTuple []) ∧
    xlenTotE emptyND = .error .typeError :=
  ⟨fun _ _ _ => rfl, rfl, rfl⟩

/-- C6: the claim states the right identity `deep_merge(a, {}) == a`.
The code raises `TypeError("Wrong format/value for input arguments")` at
struct.py lines 1276-1279 for every operand pair — in particular for
`(a, {})` — so the identity never holds. -/
theorem deep_merge_right_identity_fails :
    ∀ d : PyDict,
      deepMerge (vDict d) (vDict []) = .error .typeError ∧
      deepMerge (vDict d) (vDict []) ≠ .ok (vDict d) :=
  fun _ => ⟨rfl, fun h => Except.noConfusion h⟩

/-- C7 counterexample: on the empty container (the only constructible
one), `xget` with the unknown filter `zzz=1` raises `IndexError` — from
`list(xlen.values())[0]` over the empty cache at struct.py line 2118 —
not the claimed `UnknownDimensionError`; and `xvalues` with the same
unknown filter does not fail at all: it ignores its keyword arguments and
returns the container copy. -/
theorem xget_unknown_dimension_counterexample :
    xgetE emptyND [("zzz", vInt 1)] = .error .indexError ∧
    xgetE emptyND [("zzz", vInt 1)] ≠ .error .unknownDimension ∧
    xvaluesE emptyND false [("zzz", vInt 1)] = .ok (vDict []) :=
  ⟨rfl, by decide, rfl⟩

/-- C7 (amended): only `xkeys` validates its keyword filters.  For every
state, an unknown dimension name makes `xkeys` raise
`IOError("Parsed dimensions are not recognised")` (struct.py lines
1969-1973) — shown here on the empty container, whose empty order makes
every filter unknown.  `xvalues` never validates: with non-empty kwargs
it silently computes over the UNFILTERED key set (line 2032 calls
`xkeys(_force_list_=True)` without the kwargs) and on the empty container
returns the container copy; with no kwargs it always raises `TypeError`
from `_deepest`'s broken assert (line 1692), on every state.  `xget` with
kwargs raises `IndexError` on the empty container (see the
counterexample) rather than the unknown-dimension error. -/
theorem unknown_dimension_behaviour :
    (∀ (name : String) (v : PyVal),
      xkeysE emptyND false [(name, v)] = .error .unknownDimension) ∧
    (∀ (name : String) (v : PyVal),
      xvaluesE emptyND false [(name, v)] = .ok (vDict [])) ∧
    (∀ (name : String) (v : PyVal),
      xgetE emptyND [(name, v)] = .error .indexError) ∧
    (∀ st : NDState, xvaluesE st false [] = .error .typeError) :=
  ⟨fun _ _ => rfl, fun _ _ => rfl, fun _ _ => rfl, fun _ => rfl⟩

/-- C8: every public operation validates before mutating, and no partial
mutation survives an error — confirmed, in the strongest possible way:
each operation raises during its validation prelude, before any mutation
is attempted, for EVERY input.  In order: `xpop` raises `TypeError` for
every argument (the `Type.is_numeric` call at struct.py lines 1779-1782);
`reorder` raises `TypeError` for every sequence order (lines 2141-2144);
a non-empty `xupdate(*items)` raises `IOError` at lines 1866-1869 before
`_deep_insert` can run — so in particular the claim's "xpop on a key
whose path does not resolve to a leaf" leaves the container unchanged;
`merge` never touches the container (lines 2150-2165); and `create` of a
non-empty spec fails without producing a container at all (lines
896-900). -/
theorem fail_leaves_container_unchanged :
    (∀ (st : NDState) (a : PyVal), xpopE st a = (st, some .typeError)) ∧
    (∀ (st : NDState) (l : List PyVal), reorderE st (vList l) = (st, some .typeError)) ∧
    (∀ (st : NDState) (p : PyVal × PyVal) (items : List (PyVal × PyVal)),
      xupdateItemsE st (p :: items) = (st, some .ioError)) ∧
    (∀ (st : NDState) (others : List PyVal), (mergeMethodE st others).1 = st) ∧
    (∀ (n : String) (d : List Int) (rest : List (String × List Int)) (st : NDState),
      createE ((n, d) :: rest) ≠ .ok st) :=
  ⟨fun _ _ => rfl, fun _ _ => rfl, fun _ _ _ => rfl,
   fun st others => by unfold mergeMethodE; split <;> rfl,
   fun _ _ _ _ h => Except.noConfusion h⟩

/-- C9 counterexample: `deep_merge` never "returns a new tree" — even
for a pair of plain mappings it raises `TypeError` at the operand
validation (struct.py lines 1276-1279). -/
theorem deep_merge_no_return_counterexample :
    deepMerge (vDict [(vInt 1, vInt 2)]) (vDict [(vInt 7, vInt 5)]) = .error .typeError ∧
    (∀ r : PyVal,
      deepMerge (vDict [(vInt 1, vInt 2)]) (vDict [(vInt 7, vInt 5)]) ≠ .ok r) :=
  ⟨rfl, fun _ h => Except.noConfusion h⟩

/-- C9 (amended): `deep_merge(a, b, in_place=False)` indeed never mutates
either operand — trivially, because every call raises `TypeError` at the
operand validation (struct.py lines 1276-1279), before the
`deepcopy(dics[0])` at line 1338 or any write into a target; but for the
same reason it never returns a merged tree, so the claim's "returns a new
tree" half is unsatisfiable. -/
theorem deep_merge_never_returns :
    ∀ a b : PyVal, deepMerge a b = .error .typeError :=
  fun _ _ => rfl

/-- C10 counterexample: `xitems()` does not return a list of (key, leaf)
pairs — on the empty container (the only constructible one) it raises
`TypeError`, because its `xvalues(_force_list_=True)` argument reaches
`_deepest`'s broken assert (struct.py lines 1691-1694, via line 2068). -/
theorem xitems_raises_counterexample :
    xitemsE emptyND = .error .typeError ∧ xitemsE emptyND ≠ .ok (vList []) :=
  ⟨rfl, by decide⟩

/-- C10 (amended): `xitems()` never returns for any state: it evaluates
`xkeys(_force_list_=True)` and then `xvalues(_force_list_=True)`
(struct.py line 2068), and the latter always raises `TypeError` from
`_deepest` (line 1692), so no key/value zip is ever built and no unwrap
convention is observable through `xitems`.  `xkeys` alone does
auto-unwrap: on the empty container it returns the bare empty tuple `()`
without `_force_list_` and `[()]` with it (line 1986). -/
theorem xitems_always_raises :
    (∀ (st : NDState) (l : PyVal), xitemsE st ≠ .ok l) ∧
    xitemsE emptyND = .error .typeError ∧
    xkeysE emptyND false [] = .ok (vTuple []) ∧
    xkeysE emptyND true [] = .ok (vList [vTuple []]) := by
  refine ⟨?_, rfl, rfl, rfl⟩
  intro st l h
  unfold xitemsE at h
  cases hk : xkeysE st true [] with
  | error e => rw [hk, except_bind_err] at h; exact Except.noConfusion h
  | ok kv =>
    rw [hk, except_bind_ok] at h
    have hv : xvaluesE st true [] = .error .typeError := rfl
    rw [hv, except_bind_err] at h
    exact Except.noConfusion h
